import Mathlib

/-!
Shallow embedding of the blog-ai-backend server (`src/server.js`) and its
sqlite schema (`src/unnamed/part_000`), covering the usage-metering,
history, billing-webhook and login logic that the claims are about.

The repository bundles three near-identical server variants in
`src/server.js`.  We embed:
  * the fully-featured variant (lines 211-695): `/generate` handler
    (`generateV2`), helpers `estimateTokens`, `getUserById`,
    `updateUserPlan`, `addUsedTokens`, `saveArticle`, the `/stripe/webhook`
    handler and the `/login` handler;
  * the third variant's `/generate` handler (lines 890-923, `generateV3`),
    which computes the token estimate without the `Math.max(..., 200)`
    clamp and without a try/catch around response parsing.

The database is a list of user rows and a list of article rows, mirroring
the `users` and `articles` tables.  `usedTokens` is an `Int` because the
sqlite column is a plain INTEGER with no non-negativity constraint.
The OpenAI call is modelled by a `GatewayResult` parameter: either the
call throws (`failure`) or returns a response value whose shape the
handler then parses.
-/

namespace BlogAI

/-- A row of the `users` table: `id INTEGER PRIMARY KEY`, `email TEXT UNIQUE`,
`password TEXT` (the bcrypt hash), `plan TEXT DEFAULT 'free'`,
`usedTokens INTEGER DEFAULT 0`. -/
structure User where
  id : Nat
  email : String
  password : String
  plan : String
  usedTokens : Int
  deriving DecidableEq, Repr

/-- A row of the `articles` table: `userId`, `topic`, `content`, `createdAt`. -/
structure Article where
  userId : Nat
  topic : String
  content : String
  createdAt : String
  deriving DecidableEq, Repr

/-- The sqlite database: the `users` table and the `articles` table, in
row order. -/
structure DB where
  users : List User
  articles : List Article
  deriving DecidableEq, Repr

/-- The `PLANS` object: maps a plan name to its `maxTokensPerMonth`
(default env values: free 20000, pro 200000, premium 1000000).  An
unknown key yields `none` (JS: `undefined`). -/
def PLANS (plan : String) : Option Int :=
  if plan = "free" then some 20000
  else if plan = "pro" then some 200000
  else if plan = "premium" then some 1000000
  else none

/-- The truthy-fallback plan lookup `PLANS[user.plan] || PLANS.free`,
used by `/generate` and `/me`: an unrecognized plan falls back to the
free plan's ceiling. -/
def resolvePlan (plan : String) : Int :=
  match PLANS plan with
  | some m => m
  | none => 20000

/-- JavaScript `s.trim()` on the character list: drop leading and
trailing whitespace. -/
def jsTrimChars (l : List Char) : List Char :=
  (((l.dropWhile Char.isWhitespace).reverse).dropWhile Char.isWhitespace).reverse

/-- Number of maximal non-whitespace runs (words) in a character list;
the boolean records whether the previous character was inside a word. -/
def wordRuns : List Char → Bool → Nat
  | [], _ => 0
  | c :: rest, inWord =>
    if c.isWhitespace then wordRuns rest false
    else (if inWord then 0 else 1) + wordRuns rest true

/-- Number of fields produced by JavaScript `text.trim().split(/\s+/)`:
the empty trimmed string yields one (empty) field, otherwise the number
of whitespace-separated words. -/
def jsWordCount (s : String) : Nat :=
  let t := jsTrimChars s.data
  if t = [] then 1 else wordRuns t false

/-- The helper `estimateTokens(text)`: `0` for falsy text (empty string), otherwise
`Math.ceil(text.trim().split(/\s+/).length / 0.75)`, i.e. ⌈4·words/3⌉. -/
def estimateTokens (text : String) : Nat :=
  if text = "" then 0 else (4 * jsWordCount text + 2) / 3

/-- The helper `getUserById`: `SELECT * FROM users WHERE id = ?` — the first row with
the given id, or `none`. -/
def getUserById (db : DB) (id : Nat) : Option User :=
  db.users.find? (fun u => u.id == id)

/-- The query `SELECT * FROM users WHERE email = ?` as used by `/login`. -/
def getUserByEmail (db : DB) (email : String) : Option User :=
  db.users.find? (fun u => u.email == email)

/-- JavaScript `email.toLowerCase()`: lower-case every character. -/
def jsToLower (s : String) : String :=
  String.mk (s.data.map Char.toLower)

/-- The helper `updateUserPlan`: `UPDATE users SET plan = ? WHERE id = ?`. -/
def updateUserPlan (db : DB) (id : Nat) (newPlan : String) : DB :=
  { db with users := db.users.map (fun u =>
      if u.id = id then { u with plan := newPlan } else u) }

/-- The per-row effect of `UPDATE users SET usedTokens = usedTokens + ?
WHERE id = ?`. -/
def chargeRow (id : Nat) (amount : Int) (u : User) : User :=
  if u.id = id then { u with usedTokens := u.usedTokens + amount } else u

/-- The helper `addUsedTokens`: `UPDATE users SET usedTokens = usedTokens + ? WHERE id = ?`. -/
def addUsedTokens (db : DB) (id : Nat) (amount : Int) : DB :=
  { db with users := db.users.map (chargeRow id amount) }

/-- The helper `saveArticle`: `INSERT INTO articles (userId, topic, content, createdAt)
VALUES (?, ?, ?, ?)` — appends one row.  `createdAt` is the insertion
timestamp, passed in as `now`. -/
def saveArticle (db : DB) (userId : Nat) (topic content now : String) : DB :=
  { db with articles := db.articles ++ [⟨userId, topic, content, now⟩] }

/-! ### The OpenAI response shape and its parsing -/

/-- One element of a response's `output[i].content` array, carrying the
generated text. -/
structure GenContent where
  text : String
  deriving DecidableEq, Repr

/-- One element of a response's `output` array. -/
structure GenOutput where
  content : List GenContent
  deriving DecidableEq, Repr

/-- The value returned by `openai.responses.create`. -/
structure GenCompletion where
  output : List GenOutput
  deriving DecidableEq, Repr

/-- The extraction `completion.output[0].content[0].text`: `none` when the access chain
breaks (missing `output[0]` or `content[0]`), which in JS throws inside
the extraction expression. -/
def extractText (c : GenCompletion) : Option String :=
  match c.output with
  | [] => none
  | o :: _ =>
    match o.content with
    | [] => none
    | t :: _ => some t.text

/-- Outcome of the `await openai.responses.create(...)` call: the promise
rejects (`failure`) or resolves with a completion value. -/
inductive GatewayResult where
  | failure
  | success (c : GenCompletion)
  deriving DecidableEq, Repr

/-! ### The authenticated `/generate` handler, second variant
(src/server.js lines 585-655) -/

/-- Response of the second variant's `/generate` handler:
400 topic required, 404 user not found, 402 limit reached (echoing plan,
usedTokens and maxTokens), 200 with the article and stats, or the 500
produced by the outer catch when the gateway call throws. -/
inductive GenResp where
  | topicRequired
  | userNotFound
  | limitReached (plan : String) (usedTokens : Int) (maxTokens : Int)
  | ok (article : String) (inputTokens outputTokens totalTokens usedTokensAfter maxTokens : Int)
  | upstreamError
  deriving DecidableEq, Repr

/-- Whether a response is the 402 quota denial. -/
def GenResp.isLimit : GenResp → Bool
  | .limitReached _ _ _ => true
  | _ => false

/-- The second variant's `POST /generate` handler body (after `auth` has
resolved the caller to `uid`): validates the topic, loads the user,
resolves the plan ceiling, estimates
`inputTokens + Math.max(targetWords * 2, 200)` tokens, denies with 402
when `usedTokens + totalTokens > maxTokensPerMonth`, otherwise calls the
gateway; on gateway success it parses the text (placeholder on parse
failure), charges `totalTokens` via `addUsedTokens`, appends one article
row via `saveArticle`, and returns the article with stats.  A gateway
failure is caught by the outer try/catch (500) before any write. -/
def generateV2 (db : DB) (uid : Nat) (topicOpt : Option String) (targetWords : Int)
    (gw : GatewayResult) (now : String) : DB × GenResp :=
  match topicOpt with
  | none => (db, .topicRequired)
  | some topic =>
    if topic = "" then (db, .topicRequired)
    else
      match getUserById db uid with
      | none => (db, .userNotFound)
      | some user =>
        let maxTokens := resolvePlan user.plan
        let inputTokens : Int := estimateTokens topic
        let outputTokens : Int := max (targetWords * 2) 200
        let totalTokens : Int := inputTokens + outputTokens
        if user.usedTokens + totalTokens > maxTokens then
          (db, .limitReached user.plan user.usedTokens maxTokens)
        else
          match gw with
          | .failure => (db, .upstreamError)
          | .success comp =>
            let article :=
              match extractText comp with
              | some t => t
              | none => "Failed to parse OpenAI response."
            let db1 := addUsedTokens db uid totalTokens
            let db2 := saveArticle db1 uid topic article now
            (db2, .ok article inputTokens outputTokens totalTokens
                (user.usedTokens + totalTokens) maxTokens)

/-! ### The authenticated `/generate` handler, third variant
(src/server.js lines 890-923) -/

/-- Response of the third variant's `/generate` handler (its 402 carries
only an error string). -/
inductive GenV3Resp where
  | topicRequired
  | userNotFound
  | limitReached
  | ok (article : String)
  deriving DecidableEq, Repr

/-- The third variant's `POST /generate` handler body.  Differences from
`generateV2`: the estimate is `estimateTokens(topic) + targetWords * 2`
with no lower clamp, and there is no try/catch inside the `db.get`
callback — a gateway failure or a parse failure crashes the callback
before any write (`none` response), leaving the database untouched. -/
def generateV3 (db : DB) (uid : Nat) (topicOpt : Option String) (targetWords : Int)
    (gw : GatewayResult) (now : String) : DB × Option GenV3Resp :=
  match topicOpt with
  | none => (db, some .topicRequired)
  | some topic =>
    if topic = "" then (db, some .topicRequired)
    else
      match getUserById db uid with
      | none => (db, some .userNotFound)
      | some user =>
        let maxTokens := resolvePlan user.plan
        let tokens : Int := (estimateTokens topic : Int) + targetWords * 2
        if user.usedTokens + tokens > maxTokens then
          (db, some .limitReached)
        else
          match gw with
          | .failure => (db, none)
          | .success comp =>
            match extractText comp with
            | none => (db, none)
            | some article =>
              let db1 := addUsedTokens db uid tokens
              let db2 := saveArticle db1 uid topic article now
              (db2, some (.ok article))

/-! ### The Stripe webhook handler (src/server.js lines 363-402 / 777-806) -/

/-- The fields of a verified `checkout.session.completed` event that the
handler reads: `event.type`, and `session.metadata.userId` /
`session.metadata.plan` (each possibly absent). -/
structure StripeEvent where
  type : String
  userId : Option Nat
  plan : Option String
  deriving DecidableEq, Repr

/-- Outcome of `stripe.webhooks.constructEvent(body, sig, secret)`:
either a verified event or a thrown signature error with its message. -/
inductive SigCheck where
  | valid (ev : StripeEvent)
  | invalid (errMsg : String)
  deriving DecidableEq, Repr

/-- Webhook response: the 400 `Webhook Error: ...` body on signature
failure, or the `{ received: true }` acknowledgement. -/
inductive WebhookResp where
  | sigError (body : String)
  | received
  deriving DecidableEq, Repr

/-- The `POST /stripe/webhook` handler: verify the signature first — on
failure respond `400 Webhook Error: <message>` and stop.  On a verified
`checkout.session.completed` event with a truthy `userId` and a plan in
{pro, premium}, set that user's plan via `updateUserPlan`; any other
event or metadata is acknowledged without touching the database. -/
def stripeWebhook (db : DB) (sig : SigCheck) : DB × WebhookResp :=
  match sig with
  | .invalid m => (db, .sigError ("Webhook Error: " ++ m))
  | .valid ev =>
    if ev.type = "checkout.session.completed" then
      match ev.userId, ev.plan with
      | some uid, some plan =>
        if plan = "pro" ∨ plan = "premium" then
          (updateUserPlan db uid plan, .received)
        else
          (db, .received)
      | _, _ => (db, .received)
    else
      (db, .received)

/-! ### The `/login` handler (src/server.js lines 435-463) -/

/-- Response of `POST /login`: an error with HTTP status and message, or
a 200 carrying the signed token's claims `{ id, email }`. -/
inductive LoginResp where
  | err (status : Nat) (msg : String)
  | ok (tokenId : Nat) (tokenEmail : String)
  deriving DecidableEq, Repr

/-- The `POST /login` handler: look the user up by lowercased email; if
absent, return `400 Invalid credentials`; if `bcrypt.compareSync` (the
`cmp` parameter, applied to the supplied password and the stored hash)
fails, return `400 Invalid credentials` from the second branch; otherwise
sign a token over `{ id, email }`. -/
def login (db : DB) (cmp : String → String → Bool) (email password : String) :
    LoginResp :=
  match getUserByEmail db (jsToLower email) with
  | none => .err 400 "Invalid credentials"
  | some user =>
    if cmp password user.password then .ok user.id user.email
    else .err 400 "Invalid credentials"

/-! ### Helper lemmas -/

/-- The function `chargeRow` never changes a row's id. -/
lemma chargeRow_id (id : Nat) (amt : Int) (u : User) :
    (chargeRow id amt u).id = u.id := by
  unfold chargeRow
  split <;> rfl

/-- Updating a user's plan twice with the same value is the same as doing
it once: the SQL `UPDATE ... SET plan = ?` is a pure set. -/
lemma updateUserPlan_idem (db : DB) (id : Nat) (p : String) :
    updateUserPlan (updateUserPlan db id p) id p = updateUserPlan db id p := by
  simp only [updateUserPlan, List.map_map]
  have hf : ((fun u => if u.id = id then { u with plan := p } else u) ∘
      (fun u => if u.id = id then { u with plan := p } else u)) =
      (fun u : User => if u.id = id then { u with plan := p } else u) := by
    funext u
    simp only [Function.comp_apply]
    by_cases h : u.id = id
    · simp [h]
    · simp [h]
  rw [hf]

/-- Looking a user up after `addUsedTokens` finds the charged version of
the row found before. -/
lemma find?_map_chargeRow (l : List User) (id : Nat) (amt : Int) (u : User)
    (h : l.find? (fun v => v.id == id) = some u) :
    (l.map (chargeRow id amt)).find? (fun v => v.id == id) =
      some (chargeRow id amt u) := by
  induction l with
  | nil => simp at h
  | cons a t ih =>
    rw [List.map_cons]
    by_cases ha : (a.id == id) = true
    · rw [List.find?_cons_of_pos (p := fun v : User => v.id == id) t ha] at h
      injection h with h
      subst h
      exact List.find?_cons_of_pos (p := fun v : User => v.id == id) _
        (by simpa [chargeRow_id] using ha)
    · rw [List.find?_cons_of_neg (p := fun v : User => v.id == id) t ha] at h
      rw [List.find?_cons_of_neg (p := fun v : User => v.id == id) _
        (by simpa [chargeRow_id] using ha)]
      exact ih h

/-- Rows of other accounts survive `addUsedTokens` unchanged. -/
lemma mem_map_chargeRow_of_ne (l : List User) (id : Nat) (amt : Int) (v : User)
    (hv : v ∈ l) (hne : v.id ≠ id) : v ∈ l.map (chargeRow id amt) := by
  refine List.mem_map.mpr ⟨v, hv, ?_⟩
  unfold chargeRow
  rw [if_neg hne]

/-! ### Claim theorems: billing webhook -/

/-- Claim C4: applying the same validly-signed checkout-completed billing
event twice leaves the database (in particular every account's tier) in
the same state as applying it once — the plan mutation is an idempotent
set, not an increment. -/
theorem billing_event_idempotent (db : DB) (ev : StripeEvent) :
    (stripeWebhook (stripeWebhook db (.valid ev)).1 (.valid ev)).1 =
      (stripeWebhook db (.valid ev)).1 := by
  rcases ev with ⟨t, uidOpt, planOpt⟩
  by_cases ht : t = "checkout.session.completed"
  · subst ht
    cases uidOpt with
    | none => rfl
    | some uid =>
      cases planOpt with
      | none => rfl
      | some plan =>
        by_cases hp : plan = "pro" ∨ plan = "premium"
        · rcases hp with rfl | rfl
          · exact updateUserPlan_idem db uid "pro"
          · exact updateUserPlan_idem db uid "premium"
        · simp [stripeWebhook, hp]
  · simp [stripeWebhook, ht]

/-- Claim C5: a validly-signed billing event whose target plan is not
`pro` or `premium` (in particular `free`, or a missing plan) is
acknowledged with `{ received: true }` but changes no account: the
database is returned untouched. -/
theorem webhook_ignores_non_upgrade_tier (db : DB) (ev : StripeEvent)
    (h : ∀ p, ev.plan = some p → p ≠ "pro" ∧ p ≠ "premium") :
    stripeWebhook db (.valid ev) = (db, .received) := by
  rcases ev with ⟨t, uidOpt, planOpt⟩
  by_cases ht : t = "checkout.session.completed"
  · subst ht
    cases uidOpt with
    | none => rfl
    | some uid =>
      cases planOpt with
      | none => rfl
      | some plan =>
        have hp := h plan rfl
        simp [stripeWebhook, hp.1, hp.2]
  · simp [stripeWebhook, ht]

/-- A database and a free-tier-targeting event used to witness claim C5. -/
def dbPro : DB := ⟨[⟨1, "a@b.c", "hash", "pro", 0⟩], []⟩

/-- A validly-signed checkout event targeting tier `free`. -/
def evFree : StripeEvent := ⟨"checkout.session.completed", some 1, some "free"⟩

/-- Witness for claim C5: a checkout event targeting `free` for an
existing `pro` user leaves the database unchanged. -/
theorem webhook_ignores_non_upgrade_tier_witness :
    stripeWebhook dbPro (.valid evFree) = (dbPro, .received) :=
  webhook_ignores_non_upgrade_tier dbPro evFree (fun p hp => by
    have h2 : some "free" = some p := hp
    injection h2 with h3
    subst h3
    exact ⟨by decide, by decide⟩)

/-- Claim C6: a webhook delivery whose signature verification throws is
rejected with the 400 `Webhook Error: <message>` response built from the
verification error alone, the database is untouched (no lookup, no
mutation), and the response is independent of the database contents — no
account information or payload parsing detail can leak. -/
theorem webhook_bad_signature_rejected (db : DB) (m : String) :
    stripeWebhook db (.invalid m) = (db, .sigError ("Webhook Error: " ++ m)) ∧
    ∀ db2 : DB, (stripeWebhook db (.invalid m)).2 = (stripeWebhook db2 (.invalid m)).2 :=
  ⟨rfl, fun _ => rfl⟩

/-! ### Claim theorems: login -/

/-- Claim C7: a login with an email matching no account and a login with
an existing email but a password rejected by `bcrypt.compareSync` produce
the same response — status 400, message `Invalid credentials` — leaking
nothing about account existence. -/
theorem login_indistinguishable (db : DB) (cmp : String → String → Bool)
    (e1 p1 e2 p2 : String) (u : User)
    (h1 : getUserByEmail db (jsToLower e1) = none)
    (h2 : getUserByEmail db (jsToLower e2) = some u)
    (h3 : cmp p2 u.password = false) :
    login db cmp e1 p1 = login db cmp e2 p2 ∧
    login db cmp e1 p1 = .err 400 "Invalid credentials" := by
  simp [login, h1, h2, h3]

/-- A one-user database for the login witness. -/
def dbLogin : DB := ⟨[⟨1, "a@b.c", "HASH", "free", 0⟩], []⟩

/-- Password comparison modelling `bcrypt.compareSync` for the witness:
a password matches exactly its stored hash string. -/
def cmpEq : String → String → Bool := fun p h => p == h

/-- Witness for claim C7: unknown email `x@y.z` and existing email
`A@B.C` with a wrong password produce the identical 400 response. -/
theorem login_indistinguishable_witness :
    login dbLogin cmpEq "x@y.z" "pw" = login dbLogin cmpEq "A@B.C" "wrong" ∧
    login dbLogin cmpEq "x@y.z" "pw" = .err 400 "Invalid credentials" :=
  login_indistinguishable dbLogin cmpEq "x@y.z" "pw" "A@B.C" "wrong"
    ⟨1, "a@b.c", "HASH", "free", 0⟩ (by decide) (by decide) (by decide)

/-! ### Claim theorems: metered generation -/

/-- Claim C1: the authenticated `/generate` handler admits a request
exactly when `usedTokens + totalTokens ≤ maxTokensPerMonth` (with
`totalTokens = estimateTokens(topic) + max(targetWords*2, 200)` the
estimated cost); when it denies, it returns the 402 quota-exceeded
response carrying the current usage and ceiling and does not touch the
database or the gateway. -/
theorem generate_admission (db : DB) (uid : Nat) (topic : String) (tw : Int)
    (gw : GatewayResult) (now : String) (u : User)
    (htopic : topic ≠ "") (hu : getUserById db uid = some u) :
    ((generateV2 db uid (some topic) tw gw now).2.isLimit = false ↔
      u.usedTokens + ((estimateTokens topic : Int) + max (tw * 2) 200) ≤ resolvePlan u.plan) ∧
    (u.usedTokens + ((estimateTokens topic : Int) + max (tw * 2) 200) > resolvePlan u.plan →
      generateV2 db uid (some topic) tw gw now =
        (db, .limitReached u.plan u.usedTokens (resolvePlan u.plan))) := by
  simp only [generateV2, hu, if_neg htopic]
  by_cases hlim :
      u.usedTokens + ((estimateTokens topic : Int) + max (tw * 2) 200) > resolvePlan u.plan
  · rw [if_pos hlim]
    refine ⟨?_, fun _ => rfl⟩
    simp only [GenResp.isLimit]
    constructor
    · intro hcontr
      exact absurd hcontr (by simp)
    · intro hle
      exact absurd hle (not_le.mpr hlim)
  · rw [if_neg hlim]
    refine ⟨?_, fun hgt => absurd hgt hlim⟩
    cases gw with
    | failure => simpa [GenResp.isLimit] using not_lt.mp hlim
    | success comp => simpa [GenResp.isLimit] using not_lt.mp hlim

/-- Database with one free-tier user who has already used 100 tokens. -/
def dbGen : DB := ⟨[⟨1, "a@b.c", "h", "free", 100⟩], []⟩

/-- The user row of `dbGen`. -/
def userGen : User := ⟨1, "a@b.c", "h", "free", 100⟩

/-- A well-formed gateway completion carrying the text `"text"`. -/
def compGen : GenCompletion := ⟨[⟨[⟨"text"⟩]⟩]⟩

/-- Witness for claim C1 at topic `"hello"`, targetWords 50, one
free-tier user with 100 used tokens. -/
theorem generate_admission_witness :
    (((generateV2 dbGen 1 (some "hello") 50 (.success compGen) "2026-01-01").2.isLimit = false ↔
      userGen.usedTokens + ((estimateTokens "hello" : Int) + max (50 * 2) 200) ≤
        resolvePlan userGen.plan) ∧
    (userGen.usedTokens + ((estimateTokens "hello" : Int) + max (50 * 2) 200) >
        resolvePlan userGen.plan →
      generateV2 dbGen 1 (some "hello") 50 (.success compGen) "2026-01-01" =
        (dbGen, .limitReached userGen.plan userGen.usedTokens (resolvePlan userGen.plan)))) :=
  generate_admission dbGen 1 "hello" 50 (.success compGen) "2026-01-01" userGen
    (by decide) (by decide)

/-- Claim C2: an admitted generation that succeeds charges the account
exactly the estimated cost and appends exactly one history row with the
request's topic and the produced content; every other user row and every
pre-existing article row is unchanged. -/
theorem generate_success_charges_and_records (db : DB) (uid : Nat) (topic : String)
    (tw : Int) (comp : GenCompletion) (now : String) (u : User)
    (htopic : topic ≠ "") (hu : getUserById db uid = some u)
    (hadm : ¬ u.usedTokens + ((estimateTokens topic : Int) + max (tw * 2) 200) >
      resolvePlan u.plan) :
    let k : Int := (estimateTokens topic : Int) + max (tw * 2) 200
    let db' := (generateV2 db uid (some topic) tw (.success comp) now).1
    let article := match extractText comp with
      | some t => t
      | none => "Failed to parse OpenAI response."
    db'.articles = db.articles ++ [⟨uid, topic, article, now⟩] ∧
    db'.users = db.users.map (chargeRow uid k) ∧
    getUserById db' uid = some { u with usedTokens := u.usedTokens + k } ∧
    (∀ v ∈ db.users, v.id ≠ uid → v ∈ db'.users) := by
  intro k db' article
  have hdb' : db' = saveArticle (addUsedTokens db uid k) uid topic article now := by
    show (generateV2 db uid (some topic) tw (.success comp) now).1 = _
    simp only [generateV2, hu, if_neg htopic, if_neg hadm]
  have hid : u.id = uid := by
    have := List.find?_some hu
    simpa using this
  refine ⟨?_, ?_, ?_, ?_⟩
  · rw [hdb']
    rfl
  · rw [hdb']
    rfl
  · rw [hdb']
    show (List.map (chargeRow uid k) db.users).find? (fun v => v.id == uid) = _
    rw [find?_map_chargeRow db.users uid k u hu]
    unfold chargeRow
    rw [if_pos hid]
  · intro v hv hne
    rw [hdb']
    exact mem_map_chargeRow_of_ne db.users uid k v hv hne

/-- Witness for claim C2: the free-tier user of `dbGen` at cost
`estimateTokens "hello" + max 100 200 = 202` ends at 302 used tokens with
exactly one appended article row. -/
theorem generate_success_charges_and_records_witness :
    let k : Int := (estimateTokens "hello" : Int) + max (50 * 2) 200
    let db' := (generateV2 dbGen 1 (some "hello") 50 (.success compGen) "2026-01-01").1
    let article := match extractText compGen with
      | some t => t
      | none => "Failed to parse OpenAI response."
    db'.articles = dbGen.articles ++ [⟨1, "hello", article, "2026-01-01"⟩] ∧
    db'.users = dbGen.users.map (chargeRow 1 k) ∧
    getUserById db' 1 = some { userGen with usedTokens := userGen.usedTokens + k } ∧
    (∀ v ∈ dbGen.users, v.id ≠ 1 → v ∈ db'.users) :=
  generate_success_charges_and_records dbGen 1 "hello" 50 compGen "2026-01-01" userGen
    (by decide) (by decide) (by decide)

/-- Claim C3: when the gateway call throws, both authenticated `/generate`
variants leave the database untouched — no charge is applied and no
history row is appended (the charge only ever runs after a successful
gateway return). -/
theorem gateway_failure_leaves_db_unchanged (db : DB) (uid : Nat)
    (topicOpt : Option String) (tw : Int) (now : String) :
    (generateV2 db uid topicOpt tw .failure now).1 = db ∧
    (generateV3 db uid topicOpt tw .failure now).1 = db := by
  constructor
  · unfold generateV2
    rcases topicOpt with _ | topic
    · rfl
    · dsimp only
      split
      · rfl
      · cases getUserById db uid with
        | none => rfl
        | some user =>
          dsimp only
          split
          · rfl
          · rfl
  · unfold generateV3
    rcases topicOpt with _ | topic
    · rfl
    · dsimp only
      split
      · rfl
      · cases getUserById db uid with
        | none => rfl
        | some user =>
          dsimp only
          split
          · rfl
          · rfl

/-- Claim C9: an account whose stored plan is none of `free`, `pro`,
`premium` resolves to the free tier's ceiling in the admission check
(`PLANS[user.plan] || PLANS.free`), and the request is denied exactly
when it would be denied at the free ceiling — never on account of the
unknown tier itself. -/
theorem unknown_tier_falls_back_to_free (p : String)
    (h1 : p ≠ "free") (h2 : p ≠ "pro") (h3 : p ≠ "premium")
    (db : DB) (uid : Nat) (u : User) (topic : String) (tw : Int)
    (gw : GatewayResult) (now : String)
    (hu : getUserById db uid = some u) (hplan : u.plan = p) (htopic : topic ≠ "") :
    resolvePlan p = resolvePlan "free" ∧
    ((generateV2 db uid (some topic) tw gw now).2.isLimit = true ↔
      u.usedTokens + ((estimateTokens topic : Int) + max (tw * 2) 200) >
        resolvePlan "free") := by
  have hres : resolvePlan p = resolvePlan "free" := by
    simp [resolvePlan, PLANS, h1, h2, h3]
  refine ⟨hres, ?_⟩
  simp only [generateV2, hu, if_neg htopic, hplan, hres]
  by_cases hlim :
      u.usedTokens + ((estimateTokens topic : Int) + max (tw * 2) 200) > resolvePlan "free"
  · rw [if_pos hlim]
    simpa [GenResp.isLimit] using hlim
  · rw [if_neg hlim]
    cases gw with
    | failure => simpa [GenResp.isLimit] using hlim
    | success comp => simpa [GenResp.isLimit] using hlim

/-- Database with one user whose stored plan is the unrecognized string
`"gold"`. -/
def dbGold : DB := ⟨[⟨1, "g@g.g", "h", "gold", 0⟩], []⟩

/-- The user row of `dbGold`. -/
def userGold : User := ⟨1, "g@g.g", "h", "gold", 0⟩

/-- Witness for claim C9: plan `"gold"` resolves to the free ceiling and
the request at 0 used tokens is not denied. -/
theorem unknown_tier_falls_back_to_free_witness :
    resolvePlan "gold" = resolvePlan "free" ∧
    ((generateV2 dbGold 1 (some "hi") 50 (.success compGen) "2026-01-01").2.isLimit = true ↔
      userGold.usedTokens + ((estimateTokens "hi" : Int) + max (50 * 2) 200) >
        resolvePlan "free") :=
  unknown_tier_falls_back_to_free "gold" (by decide) (by decide) (by decide)
    dbGold 1 userGold "hi" 50 (.success compGen) "2026-01-01"
    (by decide) (by decide) (by decide)

/-- Claim C10: when the gateway call returns but its body cannot be
parsed (`output[0].content[0].text` unreachable), the admitted request is
still charged the full estimated cost, one history row is appended whose
content is the placeholder `Failed to parse OpenAI response.`, and that
placeholder is returned to the caller with the usual stats. -/
theorem parse_failure_still_charges (db : DB) (uid : Nat) (topic : String) (tw : Int)
    (comp : GenCompletion) (now : String) (u : User)
    (htopic : topic ≠ "") (hu : getUserById db uid = some u)
    (hparse : extractText comp = none)
    (hadm : ¬ u.usedTokens + ((estimateTokens topic : Int) + max (tw * 2) 200) >
      resolvePlan u.plan) :
    generateV2 db uid (some topic) tw (.success comp) now =
      (⟨db.users.map (chargeRow uid ((estimateTokens topic : Int) + max (tw * 2) 200)),
        db.articles ++ [⟨uid, topic, "Failed to parse OpenAI response.", now⟩]⟩,
       .ok "Failed to parse OpenAI response." (estimateTokens topic) (max (tw * 2) 200)
         ((estimateTokens topic : Int) + max (tw * 2) 200)
         (u.usedTokens + ((estimateTokens topic : Int) + max (tw * 2) 200))
         (resolvePlan u.plan)) := by
  simp only [generateV2, hu, if_neg htopic, if_neg hadm, hparse]
  rfl

/-- A gateway completion whose `output` array is empty, so that
extracting `output[0].content[0].text` fails. -/
def compBroken : GenCompletion := ⟨[]⟩

/-- Witness for claim C10: the `dbGen` user is charged 202 tokens and
gets the placeholder article row although the gateway body was
unparsable. -/
theorem parse_failure_still_charges_witness :
    generateV2 dbGen 1 (some "hello") 50 (.success compBroken) "2026-01-01" =
      (⟨dbGen.users.map (chargeRow 1 ((estimateTokens "hello" : Int) + max (50 * 2) 200)),
        dbGen.articles ++ [⟨1, "hello", "Failed to parse OpenAI response.", "2026-01-01"⟩]⟩,
       .ok "Failed to parse OpenAI response." (estimateTokens "hello") (max (50 * 2) 200)
         ((estimateTokens "hello" : Int) + max (50 * 2) 200)
         (userGen.usedTokens + ((estimateTokens "hello" : Int) + max (50 * 2) 200))
         (resolvePlan userGen.plan)) :=
  parse_failure_still_charges dbGen 1 "hello" 50 compBroken "2026-01-01" userGen
    (by decide) (by decide) (by decide) (by decide)

/-! ### Claim C8: the non-negativity invariant fails on the code -/

/-- Database with one fresh free-tier user (`usedTokens = 0`), as created
by `/register`. -/
def dbFresh : DB := ⟨[⟨1, "a@b.c", "h", "free", 0⟩], []⟩

/-- A normal successful gateway completion for the C8 run. -/
def compNeg : GenCompletion := ⟨[⟨[⟨"article text"⟩]⟩]⟩

/-- Claim C8 fails on the code: the third variant's `/generate`
(src/server.js lines 890-923; the first variant, lines 161-196, has the
same unclamped estimate) never validates the client-supplied
`targetWords`, so `targetWords = -101` yields the estimated cost
`estimateTokens "a" + (-101)*2 = 2 - 202 = -200`, which passes the
admission check, and the charge drives the fresh account's `usedTokens`
to `-200 < 0`. -/
theorem negative_target_words_drive_quota_negative :
    (generateV3 dbFresh 1 (some "a") (-101) (.success compNeg) "t").1.users =
      [⟨1, "a@b.c", "h", "free", -200⟩] ∧
    (generateV3 dbFresh 1 (some "a") (-101) (.success compNeg) "t").2 =
      some (.ok "article text") := by
  constructor
  · rfl
  · rfl

end BlogAI
